import Mathlib

/-!
Shallow embedding of the heart-attack risk-scoring engine
(`backend/ml/predictor.py` and `backend/ml/train_model.py`).

Numeric values are modelled as exact rationals (`ℚ`) for the arithmetic the
code performs on request fields and artifact parameters, and as reals (`ℝ`)
where the code applies transcendental functions (`math.exp`, `math.sqrt`).
Python dicts become association lists (`List (String × _)`), with `.get`
modelled by `List.lookup` plus `Option.getD` for defaults; raising `KeyError`
is modelled by `Option`/`Except` failure.
-/

/-! ## Request schema (`backend/api/schemas.py`) -/

inductive SexEnum
  | male
  | female
deriving DecidableEq, Repr

inductive ChestPainEnum
  | typical
  | atypical
  | non_anginal
  | asymptomatic
deriving DecidableEq, Repr

inductive RestECGEnum
  | normal
  | st_t_abnormality
  | hypertrophy
deriving DecidableEq, Repr

inductive SlopeEnum
  | up
  | flat
  | down
deriving DecidableEq, Repr

inductive ThalEnum
  | normal
  | fixed_defect
  | reversible_defect
deriving DecidableEq, Repr

/-- Embeds `HealthPredictionRequest` from `backend/api/schemas.py`: the fully-typed,
already-validated vitals record handed to the predictor. -/
structure HealthPredictionRequest where
  name : String
  age : ℤ
  sex : SexEnum
  chest_pain_type : ChestPainEnum
  bp_systolic : ℚ
  bp_diastolic : ℚ
  cholesterol : ℚ
  sugar_level : ℚ
  calories_burned : ℚ
  max_heart_rate : ℚ
  resting_ecg : RestECGEnum
  exercise_angina : Bool
  st_depression : ℚ
  slope : SlopeEnum
  num_major_vessels : ℤ
  thalassemia : ThalEnum
  fasting_hours : ℚ
  smoker : Bool
  diabetic : Bool
  emergency_contacts : List String
  notes : Option String
deriving DecidableEq, Repr

/-! ## Categorical code tables (`backend/ml/predictor.py`, lines 11-31) -/

def CHEST_PAIN_MAPPING : ChestPainEnum → ℚ
  | .typical => 1
  | .atypical => 2
  | .non_anginal => 3
  | .asymptomatic => 4

def REST_ECG_MAPPING : RestECGEnum → ℚ
  | .normal => 0
  | .st_t_abnormality => 1
  | .hypertrophy => 2

def SLOPE_MAPPING : SlopeEnum → ℚ
  | .up => 1
  | .flat => 2
  | .down => 3

def THAL_MAPPING : ThalEnum → ℚ
  | .normal => 3
  | .fixed_defect => 6
  | .reversible_defect => 7

/-- Embeds `FEATURE_ORDER` from `backend/ml/train_model.py`. -/
def FEATURE_ORDER : List String :=
  ["age", "sex", "cp", "trestbps", "chol", "fbs", "restecg",
   "thalach", "exang", "oldpeak", "slope", "ca", "thal"]

/-! ## Predictor state (`HeartAttackPredictor` attributes) -/

/-- One entry of the artifact scaling map: `{"mean": ..., "std": ...}`. -/
structure ScalingParams where
  mean : ℚ
  std : ℚ
deriving DecidableEq, Repr

/-- The state of a `HeartAttackPredictor` after `load_artifacts`:
model parameters, per-feature scaling, display feature stats
(`self._stats`, a dict of dicts) and the feature-importance map. -/
structure HeartAttackPredictor where
  feature_order : List String
  weights : List ℚ
  bias : ℚ
  scaling : List (String × ScalingParams)
  stats : List (String × List (String × ℚ))
  feature_importance : List (String × ℚ)

/-- The `row` dict built at the top of `_request_vector` (predictor.py
lines 73-87): the 13 named raw feature values derived from the request.
`fbs` is driven by the clinical threshold `sugar_level >= 126`. -/
def requestRow (payload : HealthPredictionRequest) : List (String × ℚ) :=
  [("age", (payload.age : ℚ)),
   ("sex", if payload.sex = .male then 1 else 0),
   ("cp", CHEST_PAIN_MAPPING payload.chest_pain_type),
   ("trestbps", payload.bp_systolic),
   ("chol", payload.cholesterol),
   ("fbs", if 126 ≤ payload.sugar_level then 1 else 0),
   ("restecg", REST_ECG_MAPPING payload.resting_ecg),
   ("thalach", payload.max_heart_rate),
   ("exang", if payload.exercise_angina then 1 else 0),
   ("oldpeak", payload.st_depression),
   ("slope", SLOPE_MAPPING payload.slope),
   ("ca", (payload.num_major_vessels : ℚ)),
   ("thal", THAL_MAPPING payload.thalassemia)]

/-- The body of the scaling loop of `_request_vector` (predictor.py lines
90-93): when the feature has scaling parameters, apply z-score scaling,
otherwise pass the raw value through. -/
def scaleFeature (s : HeartAttackPredictor) (feature : String) (value : ℚ) : ℚ :=
  match s.scaling.lookup feature with
  | some st => (value - st.mean) / st.std
  | none => value

/-- Embeds `_request_vector` (predictor.py lines 72-95): look each feature of
`feature_order` up in the request row (a missing feature raises `KeyError`,
modelled by `none`) and apply scaling. -/
def requestVector (s : HeartAttackPredictor) (payload : HealthPredictionRequest) :
    Option (List ℚ) :=
  s.feature_order.mapM fun feature =>
    ((requestRow payload).lookup feature).map (scaleFeature s feature)

/-- Embeds `sigmoid` from `backend/ml/train_model.py` lines 30-32; the same formula
is inlined in `_predict_probability` (predictor.py lines 97-100): the score is
clamped to `[-60, 60]` before exponentiation.

Modelled in exact real arithmetic.  The program computes in IEEE doubles,
where `1.0 + math.exp(-capped)` rounds to exactly `1.0` once
`math.exp(-capped)` drops below the unit roundoff (capped above roughly 37),
so the program can return exactly `1.0`; this divergence matters only to
exact-endpoint properties of the probability, not to the threshold and
interval properties proved below. -/
noncomputable def sigmoid (value : ℝ) : ℝ :=
  let capped := max (min value 60) (-60)
  1 / (1 + Real.exp (-capped))

/-- Embeds `_predict_probability` (predictor.py lines 97-100). -/
noncomputable def predictProbability (s : HeartAttackPredictor) (vector : List ℚ) : ℝ :=
  let score : ℚ := (List.zipWith (fun w v => w * v) s.weights vector).sum + s.bias
  sigmoid (score : ℝ)

/-- Embeds `_categorize_risk` (predictor.py lines 102-108): a static method of the
probability alone. -/
noncomputable def categorizeRisk (probability : ℝ) : String :=
  if probability < 0.33 then "Low"
  else if probability < 0.66 then "Moderate"
  else "High"

/-- The calories-burned bound used by `_insights` (predictor.py line 146):
`self._stats.get("calories_burned", {}).get("healthy_low", 1500)`. -/
def caloriesHealthyLow (s : HeartAttackPredictor) : ℚ :=
  (((s.stats.lookup "calories_burned").getD []).lookup "healthy_low").getD 1500

/-- Embeds `_insights` (predictor.py lines 132-150): rule-based messages appended in
a fixed order, with a generic fallback when no rule fires. -/
def insights (s : HeartAttackPredictor) (payload : HealthPredictionRequest) :
    List String :=
  let bp_stats := (s.stats.lookup "bp_systolic").getD []
  let chol_stats := (s.stats.lookup "cholesterol").getD []
  let base :=
    (if bp_stats ≠ [] ∧
        (bp_stats.lookup "p90").getD (payload.bp_systolic + 1) < payload.bp_systolic then
      ["Blood pressure is above the 90th percentile of the dataset, indicating excess arterial strain."]
    else []) ++
    (if chol_stats ≠ [] ∧
        (chol_stats.lookup "p90").getD (payload.cholesterol + 1) < payload.cholesterol then
      ["Cholesterol is significantly elevated compared to peers in the dataset."]
    else []) ++
    (if payload.exercise_angina then
      ["Exercise-induced angina reported; schedule a stress test at the earliest."]
    else []) ++
    (if 126 ≤ payload.sugar_level then
      ["Fasting sugar indicates possible diabetes; coordinate with an endocrinologist."]
    else []) ++
    (if payload.calories_burned < caloriesHealthyLow s then
      ["Weekly calorie burn is below the recommended range; integrate moderate activity."]
    else [])
  if base = [] then
    ["Vitals fall inside the population averages; maintain the current lifestyle and monitoring cadence."]
  else base

/-- Embeds `_recommendations` (predictor.py lines 152-164): two baseline entries plus
independently accumulated conditional entries. -/
def recommendations (risk_category : String) (payload : HealthPredictionRequest) :
    List String :=
  ["Log BP, sugar, and symptoms daily to capture subtle drifts.",
   "Share this summary with your cardiologist for medication alignment."] ++
  (if risk_category ≠ "Low" then
    ["Book a complete lipid profile and stress ECG within the next 7 days.",
     "Keep sublingual nitrate handy and avoid strenuous workouts until cleared."]
  else []) ++
  (if payload.calories_burned < 1500 then
    ["Walk 30 minutes/day or follow physician-approved cardio rehab plan."]
  else []) ++
  (if 126 ≤ payload.sugar_level then
    ["Bring fasting sugar under 110 mg/dL through diet, metformin, or both."]
  else [])

/-- The fields of `HealthPredictionResponse` the risk engine computes.
`risk_score` (a display-rounded copy of the probability) and `chart`
(display-only comparison points assembled from `self._stats`) are
presentation data not touched by any analysed property and are omitted. -/
structure HealthPredictionResponse where
  name : String
  risk_category : String
  probability : ℝ
  classification : ℕ
  advisory_message : String
  key_insights : List String
  feature_importance : List (String × ℚ)
  recommended_actions : List String

/-- Embeds `predict` (predictor.py lines 166-195): raises when the weight list is
empty, builds the scaled vector (propagating `KeyError`), scores it and
assembles the response. -/
noncomputable def predict (s : HeartAttackPredictor) (payload : HealthPredictionRequest) :
    Except String HealthPredictionResponse :=
  if s.weights = [] then Except.error "Model weights missing"
  else
    match requestVector s payload with
    | none => Except.error "KeyError"
    | some vector =>
      let probability := predictProbability s vector
      let classification : ℕ := if (0.5 : ℝ) ≤ probability then 1 else 0
      let risk_category := categorizeRisk probability
      Except.ok
        { name := payload.name
          risk_category := risk_category
          probability := probability
          classification := classification
          advisory_message :=
            if risk_category = "High" then "High myocardial infarction risk detected."
            else "Risk is manageable with standard precautions."
          key_insights := insights s payload
          feature_importance := s.feature_importance
          recommended_actions := recommendations risk_category payload }

/-! ## Training pipeline (`backend/ml/train_model.py`) -/

/-- Training-side scaling parameters; the dict `{"mean": mean, "std": std}`
built by `compute_scaling`.  Real-valued because `std` comes from
`math.sqrt`. -/
structure ScalingR where
  mean : ℝ
  std : ℝ

/-- Embeds `compute_scaling` (train_model.py lines 64-72), per feature: mean,
population variance (denominator `N`), and `std = math.sqrt(variance) or 1.0`
(Python `or` replaces a zero square root by `1.0`).  A training row is
modelled as a total valuation of its named columns. -/
noncomputable def compute_scaling (rows : List (String → ℝ)) (feature : String) :
    ScalingR :=
  let values := rows.map fun entry => entry feature
  let mean := values.sum / (values.length : ℝ)
  let variance := (values.map fun value => (value - mean) ^ 2).sum / (values.length : ℝ)
  let std := Real.sqrt variance
  ⟨mean, if std = 0 then 1 else std⟩

/-- The comprehension body of `scale_row` (train_model.py lines 75-79):
`(row[feature] - scaling[feature]["mean"]) / scaling[feature]["std"]`. -/
noncomputable def trainScaleFeature (row : String → ℝ) (scaling : String → ScalingR)
    (feature : String) : ℝ :=
  (row feature - (scaling feature).mean) / (scaling feature).std

/-- Embeds `scale_row` (train_model.py lines 75-79): the scaled vector in canonical
feature order. -/
noncomputable def scale_row (row : String → ℝ) (scaling : String → ScalingR) :
    List ℝ :=
  FEATURE_ORDER.map (trainScaleFeature row scaling)

/-- The dict comprehension `raw = {feature: abs(weight) for feature, weight in
zip(FEATURE_ORDER, weights)}` of `normalize_importance` (train_model.py
line 175); `zip` truncates to the shorter of the two lists. -/
def rawImportance (weights : List ℚ) : List (String × ℚ) :=
  List.zipWith (fun feature weight => (feature, |weight|)) FEATURE_ORDER weights

/-- Embeds `normalize_importance` (train_model.py lines 174-177):
`total = sum(raw.values()) or 1.0`, then divide every absolute weight by the
total. -/
def normalize_importance (weights : List ℚ) : List (String × ℚ) :=
  let raw := rawImportance weights
  let total0 := (raw.map Prod.snd).sum
  let total := if total0 = 0 then 1 else total0
  raw.map fun fv => (fv.1, fv.2 / total)

/-! ## Model artifact persistence and loading -/

/-- The typed content the predictor keeps after a successful load: the four
fields read from the model artifact document. -/
structure ModelArtifactData where
  feature_order : List String
  weights : List ℚ
  bias : ℚ
  scaling : List (String × ScalingParams)
deriving DecidableEq, Repr

/-- The persisted model artifact document, as a JSON object with optional
keys: `payload[k]` raises `KeyError` exactly when the key is absent
(modelled by `none`). -/
structure ModelPayload where
  feature_order : Option (List String)
  weights : Option (List ℚ)
  bias : Option ℚ
  scaling : Option (List (String × ScalingParams))
deriving DecidableEq, Repr

/-- The `KeyError` raised by a subscript on a missing artifact key (the
`MalformedArtifact` condition of the spec taxonomy). -/
inductive LoadError
  | missingKey (key : String)
deriving DecidableEq, Repr

/-- The model-document part of `load_artifacts` (predictor.py lines 54-59):
read the four required keys in order, raising `KeyError` on the first
missing one; no further validation is performed. -/
def load_artifacts (payload : ModelPayload) : Except LoadError ModelArtifactData :=
  match payload.feature_order with
  | none => Except.error (.missingKey "feature_order")
  | some fo =>
    match payload.weights with
    | none => Except.error (.missingKey "weights")
    | some ws =>
      match payload.bias with
      | none => Except.error (.missingKey "bias")
      | some b =>
        match payload.scaling with
        | none => Except.error (.missingKey "scaling")
        | some sc => Except.ok ⟨fo, ws, b, sc⟩

/-- The model-document part of `persist_artifacts` (train_model.py lines
194-195): `json.dump` writes the assembled `model_payload` dict, whose four
keys are all present.  Python `json` round-trips numbers exactly (floats are
re-read bit-identically), which exact rationals model faithfully. -/
def persist_artifacts (artifact : ModelArtifactData) : ModelPayload :=
  ⟨some artifact.feature_order, some artifact.weights,
   some artifact.bias, some artifact.scaling⟩

/-! ## Concrete instances used by witnesses -/

/-- A minimal predictor state: one weight, empty feature order, no stats. -/
def predictor0 : HeartAttackPredictor :=
  { feature_order := []
    weights := [1]
    bias := 0
    scaling := []
    stats := []
    feature_importance := [] }

/-- A predictor state carrying a scaling entry for `age`. -/
def predictor1 : HeartAttackPredictor :=
  { feature_order := FEATURE_ORDER
    weights := [1]
    bias := 0
    scaling := [("age", ⟨50, 10⟩)]
    stats := []
    feature_importance := [] }

/-- A concrete vitals record with a weekly calorie burn of 1000. -/
def request0 : HealthPredictionRequest :=
  { name := "pat"
    age := 54
    sex := .male
    chest_pain_type := .typical
    bp_systolic := 120
    bp_diastolic := 80
    cholesterol := 180
    sugar_level := 100
    calories_burned := 1000
    max_heart_rate := 150
    resting_ecg := .normal
    exercise_angina := false
    st_depression := 1
    slope := .up
    num_major_vessels := 0
    thalassemia := .normal
    fasting_hours := 8
    smoker := false
    diabetic := false
    emergency_contacts := []
    notes := none }

/-! ## Helper lemmas about the sigmoid -/

theorem sigmoid_pos (x : ℝ) : 0 < sigmoid x := by
  simp only [sigmoid]
  positivity

theorem sigmoid_lt_one (x : ℝ) : sigmoid x < 1 := by
  simp only [sigmoid]
  rw [div_lt_one (by positivity)]
  have := Real.exp_pos (-(max (min x 60) (-60)))
  linarith

/-- When the weight list is non-empty and the vector was built, `predict`
returns the assembled response. -/
theorem predict_eq_ok (s : HeartAttackPredictor) (payload : HealthPredictionRequest)
    (v : List ℚ) (hw : s.weights ≠ []) (hv : requestVector s payload = some v) :
    predict s payload = Except.ok
      { name := payload.name
        risk_category := categorizeRisk (predictProbability s v)
        probability := predictProbability s v
        classification := if (0.5 : ℝ) ≤ predictProbability s v then 1 else 0
        advisory_message :=
          if categorizeRisk (predictProbability s v) = "High" then
            "High myocardial infarction risk detected."
          else "Risk is manageable with standard precautions."
        key_insights := insights s payload
        feature_importance := s.feature_importance
        recommended_actions := recommendations (categorizeRisk (predictProbability s v)) payload } := by
  simp only [predict, if_neg hw, hv]

/-! ## Claim C1 -/

/-- C1: for every valid prediction request (non-empty weights and a
constructible feature vector), `predict` returns a probability in `[0, 1]`
and a classification in `{0, 1}`, and the classification equals `1` exactly
when the probability is at least `0.5`. -/
theorem predict_probability_and_classification (s : HeartAttackPredictor)
    (payload : HealthPredictionRequest) (hw : s.weights ≠ [])
    (hv : ∃ v, requestVector s payload = some v) :
    ∃ r, predict s payload = Except.ok r ∧
      (0 ≤ r.probability ∧ r.probability ≤ 1) ∧
      (r.classification = 0 ∨ r.classification = 1) ∧
      (r.classification = 1 ↔ (0.5 : ℝ) ≤ r.probability) := by
  obtain ⟨v, hv⟩ := hv
  refine ⟨_, predict_eq_ok s payload v hw hv, ?_, ?_, ?_⟩
  · have h1 := sigmoid_pos (((List.zipWith (fun w v => w * v) s.weights v).sum + s.bias : ℚ) : ℝ)
    have h2 := sigmoid_lt_one (((List.zipWith (fun w v => w * v) s.weights v).sum + s.bias : ℚ) : ℝ)
    simp only [predictProbability]
    exact ⟨le_of_lt h1, le_of_lt h2⟩
  · by_cases h : (0.5 : ℝ) ≤ predictProbability s v
    · right; simp [h]
    · left; simp [h]
  · by_cases h : (0.5 : ℝ) ≤ predictProbability s v
    · simp [h]
    · simp [h]

/-- Witness for C1 at a concrete predictor state and request. -/
theorem predict_probability_and_classification_witness :
    ∃ r, predict predictor0 request0 = Except.ok r ∧
      (0 ≤ r.probability ∧ r.probability ≤ 1) ∧
      (r.classification = 0 ∨ r.classification = 1) ∧
      (r.classification = 1 ↔ (0.5 : ℝ) ≤ r.probability) :=
  predict_probability_and_classification predictor0 request0 (by decide) ⟨[], by decide⟩

/-! ## Claim C2 -/

/-- C2: the risk category is a function of the probability alone (the type of
`categorizeRisk` is `ℝ → String`), and buckets `[0, 0.33)` to `"Low"`,
`[0.33, 0.66)` to `"Moderate"` and `[0.66, 1]` to `"High"`. -/
theorem categorize_risk_thresholds (p : ℝ) :
    (0 ≤ p → p < 0.33 → categorizeRisk p = "Low") ∧
    ((0.33 : ℝ) ≤ p → p < 0.66 → categorizeRisk p = "Moderate") ∧
    ((0.66 : ℝ) ≤ p → p ≤ 1 → categorizeRisk p = "High") := by
  refine ⟨fun h0 h1 => ?_, fun h0 h1 => ?_, fun h0 h1 => ?_⟩ <;>
    simp only [categorizeRisk] <;> split_ifs <;> first | rfl | linarith

/-- Witness for C2 at one probability inside each bucket. -/
theorem categorize_risk_thresholds_witness :
    categorizeRisk 0.2 = "Low" ∧ categorizeRisk 0.5 = "Moderate" ∧
      categorizeRisk 0.9 = "High" :=
  ⟨(categorize_risk_thresholds 0.2).1 (by norm_num) (by norm_num),
   (categorize_risk_thresholds 0.5).2.1 (by norm_num) (by norm_num),
   (categorize_risk_thresholds 0.9).2.2 (by norm_num) (by norm_num)⟩

/-! ## Claim C6 -/

/-- C6: the `fbs` entry of the constructed request row is `1` exactly when
`sugar_level ≥ 126` and `0` otherwise, and it is unchanged when the
caller-supplied boolean flag fields (`exercise_angina`, `smoker`,
`diabetic`) are varied arbitrarily. -/
theorem fbs_feature_follows_threshold (payload : HealthPredictionRequest)
    (a b c : Bool) :
    (requestRow payload).lookup "fbs" =
        some (if 126 ≤ payload.sugar_level then 1 else 0) ∧
    (requestRow
        { payload with exercise_angina := a, smoker := b, diabetic := c }).lookup
      "fbs" = (requestRow payload).lookup "fbs" :=
  ⟨rfl, rfl⟩

/-! ## Claim C9 -/

/-- C9: for a non-empty training set, the `std` computed by
`compute_scaling` is strictly positive for every feature: a zero population
standard deviation is replaced by `1.0`, so the per-feature division in
scaling never divides by zero. -/
theorem compute_scaling_std_pos (rows : List (String → ℝ)) (feature : String)
    (_hrows : rows ≠ []) : 0 < (compute_scaling rows feature).std := by
  simp only [compute_scaling]
  split_ifs with h
  · norm_num
  · exact lt_of_le_of_ne (Real.sqrt_nonneg _) (Ne.symm h)

/-- Witness for C9 on a one-row training set (whose variance is zero, so the
floor to `1.0` kicks in). -/
theorem compute_scaling_std_pos_witness :
    0 < (compute_scaling [fun _ => 0] "age").std :=
  compute_scaling_std_pos [fun _ => 0] "age" (by simp)

/-! ## Helper lemmas for feature importance -/

theorem zip_abs_snd_nonneg (fs : List String) :
    ∀ (ws : List ℚ), ∀ fv ∈ List.zipWith (fun f w => (f, |w|)) fs ws, 0 ≤ fv.2 := by
  induction fs with
  | nil => intro ws fv h; simp at h
  | cons f fs ih =>
    intro ws fv h
    cases ws with
    | nil => simp at h
    | cons w ws =>
      simp only [List.zipWith_cons_cons, List.mem_cons] at h
      rcases h with h | h
      · rw [h]; exact abs_nonneg w
      · exact ih ws fv h

theorem list_sum_eq_zero_of_nonneg {l : List ℚ} (hnn : ∀ x ∈ l, 0 ≤ x)
    (hsum : l.sum = 0) : ∀ x ∈ l, x = 0 := by
  induction l with
  | nil => simp
  | cons a l ih =>
    have ha : 0 ≤ a := hnn a (by simp)
    have hl : 0 ≤ l.sum := List.sum_nonneg fun x hx => hnn x (by simp [hx])
    rw [List.sum_cons] at hsum
    intro x hx
    rcases List.mem_cons.mp hx with h | h
    · subst h; linarith
    · exact ih (fun y hy => hnn y (by simp [hy])) (by linarith) x h

theorem list_sum_map_div (l : List (String × ℚ)) (t : ℚ) :
    ((l.map fun fv => (fv.1, fv.2 / t)).map Prod.snd).sum = (l.map Prod.snd).sum / t := by
  induction l with
  | nil => simp
  | cons a l ih => simp only [List.map_cons, List.sum_cons, ih, add_div]

/-! ## Claim C3 -/

/-- C3 counterexample: with the all-zero weight vector `[0]`, every weight is
zero yet `normalize_importance` returns a non-empty map (one zero entry per
zipped feature) whose values sum to `0`, not `1` — the map is not empty. -/
theorem normalize_importance_all_zero_not_empty :
    (∀ w ∈ [(0 : ℚ)], w = 0) ∧ normalize_importance [0] ≠ [] ∧
      ((normalize_importance [0]).map Prod.snd).sum ≠ 1 := by
  refine ⟨by simp, ?_, ?_⟩ <;>
    norm_num [normalize_importance, rawImportance, FEATURE_ORDER]

/-- C3 amended: feature-importance values are always non-negative; they sum
to `1` whenever some zipped absolute weight is non-zero; when all weights are
zero the map instead carries value `0` for every zipped feature, and it is
empty exactly when the weight list itself is empty. -/
theorem normalize_importance_amended (weights : List ℚ) :
    (∀ fv ∈ normalize_importance weights, 0 ≤ fv.2) ∧
    (((rawImportance weights).map Prod.snd).sum ≠ 0 →
      ((normalize_importance weights).map Prod.snd).sum = 1) ∧
    (((rawImportance weights).map Prod.snd).sum = 0 →
      ((∀ fv ∈ normalize_importance weights, fv.2 = 0) ∧
       (normalize_importance weights = [] ↔ weights = []))) := by
  have hraw : ∀ fv ∈ rawImportance weights, 0 ≤ fv.2 :=
    zip_abs_snd_nonneg FEATURE_ORDER weights
  have ht0nn : 0 ≤ ((rawImportance weights).map Prod.snd).sum := by
    apply List.sum_nonneg
    intro x hx
    obtain ⟨fv, hfv, rfl⟩ := List.mem_map.mp hx
    exact hraw fv hfv
  refine ⟨?_, ?_, ?_⟩
  · intro fv hfv
    simp only [normalize_importance] at hfv
    obtain ⟨a, ha, rfl⟩ := List.mem_map.mp hfv
    have hpos : (0 : ℚ) < if ((rawImportance weights).map Prod.snd).sum = 0 then 1
        else ((rawImportance weights).map Prod.snd).sum := by
      split_ifs with h
      · norm_num
      · exact lt_of_le_of_ne ht0nn (Ne.symm h)
    exact div_nonneg (hraw a ha) (le_of_lt hpos)
  · intro h
    simp only [normalize_importance, if_neg h, list_sum_map_div]
    exact div_self h
  · intro h0
    constructor
    · intro fv hfv
      simp only [normalize_importance] at hfv
      obtain ⟨a, ha, rfl⟩ := List.mem_map.mp hfv
      have ha0 : a.2 = 0 :=
        list_sum_eq_zero_of_nonneg
          (fun x hx => by
            obtain ⟨fv, hfv, rfl⟩ := List.mem_map.mp hx
            exact hraw fv hfv)
          h0 a.2 (List.mem_map_of_mem Prod.snd ha)
      simp [ha0]
    · simp only [normalize_importance, rawImportance, List.map_eq_nil_iff,
        List.zipWith_eq_nil_iff]
      simp [FEATURE_ORDER]

/-- Witness for the amended C3 at the weight vector `[2, -1]`. -/
theorem normalize_importance_amended_witness :
    ((rawImportance [2, -1]).map Prod.snd).sum ≠ 0 ∧
      ((normalize_importance [2, -1]).map Prod.snd).sum = 1 :=
  ⟨by norm_num [rawImportance, FEATURE_ORDER],
   (normalize_importance_amended [2, -1]).2.1
     (by norm_num [rawImportance, FEATURE_ORDER])⟩

/-! ## Claim C4 -/

/-- C4 counterexample: a persisted document whose `feature_order` has two
entries but whose `weights` has one loads successfully — `load_artifacts`
performs no length-consistency check. -/
theorem load_artifacts_ok_with_inconsistent_lengths :
    load_artifacts ⟨some ["age", "sex"], some [1], some 0, some []⟩ =
        Except.ok ⟨["age", "sex"], [1], 0, []⟩ ∧
      (["age", "sex"] : List String).length ≠ ([(1 : ℚ)] : List ℚ).length :=
  ⟨rfl, by decide⟩

/-- C4 amended: loading a persisted model artifact fails (with the
`MalformedArtifact`/`KeyError` condition) exactly when one of the four
required keys is absent; no length-consistency validation is performed, so
loading succeeds whenever all keys are present. -/
theorem load_artifacts_fails_iff_key_missing (payload : ModelPayload) :
    (∃ e, load_artifacts payload = Except.error e) ↔
      (payload.feature_order = none ∨ payload.weights = none ∨
       payload.bias = none ∨ payload.scaling = none) := by
  obtain ⟨fo, ws, b, sc⟩ := payload
  cases fo <;> cases ws <;> cases b <;> cases sc <;> simp [load_artifacts]

/-! ## Claim C8 -/

/-- C8: persisting a model artifact and loading it back succeeds and yields
`feature_order`, `weights` and `bias` (and `scaling`) identical to the
persisted values, with no loss. -/
theorem persist_then_load_roundtrip (artifact : ModelArtifactData) :
    load_artifacts (persist_artifacts artifact) = Except.ok artifact := rfl

/-! ## Claim C7 -/

/-- C7: a feature value exactly equal to the scaling mean scales to `0`,
both in the training-time `scale_row` comprehension body and in the
inference-time vector construction of `_request_vector`. -/
theorem scale_at_mean_is_zero (row : String → ℝ) (scaling : String → ScalingR)
    (feature : String) (s : HeartAttackPredictor) (m σ : ℚ)
    (htrain : row feature = (scaling feature).mean)
    (_hstd : (scaling feature).std ≠ 0)
    (hinf : s.scaling.lookup feature = some ⟨m, σ⟩)
    (_hσ : σ ≠ 0) :
    trainScaleFeature row scaling feature = 0 ∧ scaleFeature s feature m = 0 := by
  constructor
  · simp [trainScaleFeature, htrain]
  · simp [scaleFeature, hinf]

/-- Witness for C7 with mean `50`, std `10` and the value `50`. -/
theorem scale_at_mean_is_zero_witness :
    trainScaleFeature (fun _ => 50) (fun _ => ⟨50, 10⟩) "age" = 0 ∧
      scaleFeature predictor1 "age" 50 = 0 :=
  scale_at_mean_is_zero (fun _ => 50) (fun _ => ⟨50, 10⟩) "age" predictor1 50 10
    rfl (by norm_num) (by decide) (by decide)

/-! ## Claim C5 -/

/-- C5: whenever the reported calorie burn is below the healthy-low bound the
predictor reads from the calories-burned feature stats, and that bound is the
`1500` the training pipeline always persists, the prediction result contains
both the low-activity insight and the activity recommendation, whatever the
other request fields are. -/
theorem low_calorie_burn_messages (s : HeartAttackPredictor)
    (payload : HealthPredictionRequest) (hw : s.weights ≠ [])
    (hv : ∃ v, requestVector s payload = some v)
    (hcal : payload.calories_burned < caloriesHealthyLow s)
    (hbound : caloriesHealthyLow s = 1500) :
    ∃ r, predict s payload = Except.ok r ∧
      "Weekly calorie burn is below the recommended range; integrate moderate activity."
        ∈ r.key_insights ∧
      "Walk 30 minutes/day or follow physician-approved cardio rehab plan."
        ∈ r.recommended_actions := by
  obtain ⟨v, hv⟩ := hv
  refine ⟨_, predict_eq_ok s payload v hw hv, ?_, ?_⟩
  · simp only [insights, if_pos hcal]
    split_ifs <;> simp_all
  · have h1500 : payload.calories_burned < 1500 := hbound ▸ hcal
    simp only [recommendations, if_pos h1500]
    simp

/-- Witness for C5 at a concrete predictor state (default bound `1500`) and
a request reporting a calorie burn of `1000`. -/
theorem low_calorie_burn_messages_witness :
    ∃ r, predict predictor0 request0 = Except.ok r ∧
      "Weekly calorie burn is below the recommended range; integrate moderate activity."
        ∈ r.key_insights ∧
      "Walk 30 minutes/day or follow physician-approved cardio rehab plan."
        ∈ r.recommended_actions :=
  low_calorie_burn_messages predictor0 request0 (by decide) ⟨[], by decide⟩
    (by decide) (by decide)
